import Mathlib

/-!
Shallow embedding of the QML-to-CartoCSS symbology translator
(`convert-qml.py`) and verification of its specified properties.

The parsed XML style document is modelled as a tree of records mirroring
the elements the translator actually reads: `renderer-v2` elements with a
`type` (and, when categorized, an `attr`) attribute, `category` elements
with `symbol` and `value` attributes, `symbol` elements with `name`,
`type` and nested `layer` children, and `prop` elements with `k`/`v`
attributes.  Printed output is modelled as a list of `OutLine` values,
one constructor per distinct print statement of the source.  Python
exceptions are modelled with `Except PyError`; Python float values are
modelled as exact rationals.
-/

/-- A prop element: attributes k (key) and v (value). -/
structure PropertyRecord where
  k : String
  v : String
deriving DecidableEq, Repr

/-- A layer element: its prop children, in document order. -/
structure LayerNode where
  props : List PropertyRecord
deriving DecidableEq, Repr

/-- A symbol element: name and type attributes and layer children in
document order (the source indexes the first with a findall). -/
structure SymbolNode where
  name : String
  type : String
  layers : List LayerNode
deriving DecidableEq, Repr

/-- A category element: symbol (the referenced symbol name) and value
attributes. -/
structure CategoryEntry where
  symbol : String
  value : String
deriving DecidableEq, Repr

/-- A renderer-v2 element: its type attribute, its optional attr
attribute (read only in the categorized branch; absent would be a
KeyError), and its category and symbol descendants in document order. -/
structure RendererNode where
  type : String
  attr : Option String
  categories : List CategoryEntry
  symbols : List SymbolNode
deriving DecidableEq, Repr

/-- The parsed document root: its renderer-v2 descendants in document
order. -/
structure StyleDocument where
  renderers : List RendererNode
deriving DecidableEq, Repr

/-- Errors the translator can raise, mirroring the Python exceptions:
list indexing into an empty findall result (IndexError), a missing
attribute (KeyError), and a failed float conversion (TypeError on None,
ValueError on a non-numeric string). -/
inductive PyError
  | indexError
  | keyError (k : String)
  | floatConvError (raw : Option String)
deriving DecidableEq, Repr

/-- The value part of an emitted declaration: a string, or the number
produced for marker-width. -/
inductive DeclValue
  | str (s : String)
  | num (q : ℚ)
deriving DecidableEq, Repr

/-- One printed output line, one constructor per print statement of the
source: the processing header, the outer selector open and close, a
category selector block open and close, the unknown-type diagnostic, and
a property declaration line. -/
inductive OutLine
  | header (f : String)
  | openOuter (basename : String)
  | openBlock (attr : String) (value : String)
  | closeBlock
  | closeOuter
  | unknownType
  | decl (key : String) (value : DeclValue)
deriving DecidableEq, Repr

/-- find_layer_prop: findall of the prop children whose k attribute
equals prop; None when the result list is empty, otherwise the v
attribute of its first element. -/
def find_layer_prop (layer : LayerNode) (prop : String) : Option String :=
  match layer.props.filter (fun p => p.k = prop) with
  | [] => none
  | r :: _ => some r.v

/-- get_prop: a plain wrapper around find_layer_prop. -/
def get_prop (layer : LayerNode) (prop : String) : Option String :=
  find_layer_prop layer prop

/-- Python str conversion of an Optional string, as performed by
str.format: None prints as the four characters None. -/
def pyStrOfOpt : Option String → String
  | none => "None"
  | some s => s

/-- get_prop_color: wraps the looked-up raw value, formatted the Python
way, in rgba(...); no validation, and an absent value yields
rgba(None). -/
def get_prop_color (layer : LayerNode) (prop : String) : String :=
  "rgba(" ++ pyStrOfOpt (find_layer_prop layer prop) ++ ")"

/-- get_prop_penstyle: maps solid to none, dash to 5, 2 and dot to
1, 1; every other lookup result, a missing property included, yields the
sentinel XXX. -/
def get_prop_penstyle (layer : LayerNode) (prop : String) : String :=
  let penstyle := find_layer_prop layer prop
  if penstyle = some "solid" then "none"
  else if penstyle = some "dash" then "5, 2"
  else if penstyle = some "dot" then "1, 1"
  else "XXX"

/-- Value of a list of decimal digit characters. -/
def digitsToNat (l : List Char) : Nat :=
  l.foldl (fun a c => a * 10 + (c.toNat - 48)) 0

/-- Decimal part of the Python float builtin on an unsigned literal:
digits with an optional dot and fraction digits; at least one digit must
be present.  (Exponents, inf/nan and surrounding whitespace are not
modelled; the style files carry plain decimals.) -/
def pyFloatCore (l : List Char) : Option ℚ :=
  let ip := l.takeWhile Char.isDigit
  let rest := l.drop ip.length
  match rest with
  | [] => if ip.isEmpty then none else some (digitsToNat ip : ℚ)
  | c :: fp =>
    if c = '.' ∧ fp.all Char.isDigit ∧ (ip ≠ [] ∨ fp ≠ []) then
      some ((digitsToNat ip : ℚ) + (digitsToNat fp : ℚ) / (10 : ℚ) ^ fp.length)
    else none

/-- The Python float builtin on a string: optional sign then a decimal
literal.  Returns none where Python raises ValueError. -/
def pyFloat (s : String) : Option ℚ :=
  match s.toList with
  | [] => none
  | c :: rest =>
    if c = '-' then (pyFloatCore rest).map (fun q => -q)
    else if c = '+' then pyFloatCore rest
    else pyFloatCore (c :: rest)

/-- The float conversion applied to a property lookup result: Python
raises TypeError on None and ValueError on a non-numeric string; both
are fatal, modelled as floatConvError. -/
def pyFloatOfOpt : Option String → Except PyError ℚ
  | none => Except.error (PyError.floatConvError none)
  | some s =>
    match pyFloat s with
    | none => Except.error (PyError.floatConvError (some s))
    | some q => Except.ok q

/-- The source pattern width = get_prop(...); if width: print(...) — a
declaration guarded by Python truthiness, so both an absent value and an
empty string suppress the line. -/
def optionalDecl (key : String) (w : Option String) : List OutLine :=
  match w with
  | some s => if s = "" then [] else [OutLine.decl key (DeclValue.str s)]
  | none => []

/-- The source pattern penstyle = get_prop_penstyle(...); if penstyle
and penstyle not equal to the string none: print(...). -/
def dashDecl (penstyle : String) : List OutLine :=
  if penstyle ≠ "" ∧ penstyle ≠ "none" then
    [OutLine.decl "line-dasharray" (DeclValue.str penstyle)]
  else []

/-- The fill branch of process_symbol: polygon-fill and line-color
always, line-width when width-border is truthy. -/
def fillLines (ty : String) (layer : LayerNode) : List OutLine :=
  if ty = "fill" then
    OutLine.decl "polygon-fill" (DeclValue.str (get_prop_color layer "color")) ::
    OutLine.decl "line-color" (DeclValue.str (get_prop_color layer "color_border")) ::
    optionalDecl "line-width" (get_prop layer "width-border")
  else []

/-- The line branch of process_symbol: line-color always, line-width
when width is truthy, line-dasharray when the translated penstyle is
truthy and not none. -/
def lineLines (ty : String) (layer : LayerNode) : List OutLine :=
  if ty = "line" then
    OutLine.decl "line-color" (DeclValue.str (get_prop_color layer "color")) ::
    (optionalDecl "line-width" (get_prop layer "width") ++
     dashDecl (get_prop_penstyle layer "penstyle"))
  else []

/-- The marker branch of process_symbol on a successfully parsed size:
marker-fill, marker-line-color, then marker-width = size times 5. -/
def markerLines (layer : LayerNode) (q : ℚ) : List OutLine :=
  [OutLine.decl "marker-fill" (DeclValue.str (get_prop_color layer "color")),
   OutLine.decl "marker-line-color" (DeclValue.str (get_prop_color layer "color_border")),
   OutLine.decl "marker-width" (DeclValue.num (q * 5))]

/-- process_symbol: indexes the first layer of the symbol (IndexError when
there is none), then runs the three sequential type tests of the source;
only the marker branch can fail, at the float conversion of size. -/
def process_symbol (symbol : SymbolNode) : Except PyError (List OutLine) :=
  match symbol.layers with
  | [] => Except.error PyError.indexError
  | layer :: _ =>
    if symbol.type = "marker" then
      match pyFloatOfOpt (get_prop layer "size") with
      | Except.error e => Except.error e
      | Except.ok q =>
        Except.ok (fillLines symbol.type layer ++ lineLines symbol.type layer ++
          markerLines layer q)
    else
      Except.ok (fillLines symbol.type layer ++ lineLines symbol.type layer)

/-- The inner loop of process_categorizedSymbol: for every symbol the
name query matched, open a selector block with the renderer attr and the
category value, process the symbol, close the block. -/
def processOneCategory (attr value : String) :
    List SymbolNode → Except PyError (List OutLine)
  | [] => Except.ok []
  | s :: rest =>
    match process_symbol s with
    | Except.error e => Except.error e
    | Except.ok body =>
      match processOneCategory attr value rest with
      | Except.error e => Except.error e
      | Except.ok tail =>
        Except.ok (OutLine.openBlock attr value :: (body ++ OutLine.closeBlock :: tail))

/-- The outer loop of process_categorizedSymbol: for every category, in
document order, filter the symbols of the renderer by the symbol name of
the category and emit the matched blocks. -/
def processCategories (symbols : List SymbolNode) (attr : String) :
    List CategoryEntry → Except PyError (List OutLine)
  | [] => Except.ok []
  | c :: rest =>
    match processOneCategory attr c.value (symbols.filter (fun s => s.name = c.symbol)) with
    | Except.error e => Except.error e
    | Except.ok blocks =>
      match processCategories symbols attr rest with
      | Except.error e => Except.error e
      | Except.ok tail => Except.ok (blocks ++ tail)

/-- process_categorizedSymbol: iterate the categories of the renderer in
document order. -/
def process_categorizedSymbol (renderer : RendererNode) (attr : String) :
    Except PyError (List OutLine) :=
  processCategories renderer.symbols attr renderer.categories

/-- The symbol elements the findall query for symbol reaches from the document
root, in document order. -/
def docSymbols (root : StyleDocument) : List SymbolNode :=
  (root.renderers.map (fun r => r.symbols)).flatten

/-- process_singleSymbol: indexes the first symbol element of the whole
document (IndexError when there is none) and processes it. -/
def process_singleSymbol (renderer : StyleDocument) : Except PyError (List OutLine) :=
  match docSymbols renderer with
  | [] => Except.error PyError.indexError
  | s :: _ => process_symbol s

/-- The Python slice f[8:-4] applied to the file name. -/
def pyBasename (f : String) : String :=
  let l := f.toList.drop 8
  String.mk (l.take (l.length - 4))

/-- process_file: print the header and the outer selector, index the
first renderer-v2 element, dispatch on its type attribute —
categorizedSymbol reads attr and runs the categorized strategy,
singleSymbol runs the single-symbol strategy, anything else prints the
unknown-type diagnostic — then close the outer selector. -/
def process_file (f : String) (root : StyleDocument) : Except PyError (List OutLine) :=
  match root.renderers with
  | [] => Except.error PyError.indexError
  | renderer :: _ =>
    if renderer.type = "categorizedSymbol" then
      match renderer.attr with
      | none => Except.error (PyError.keyError "attr")
      | some attr =>
        match process_categorizedSymbol renderer attr with
        | Except.error e => Except.error e
        | Except.ok body =>
          Except.ok (OutLine.header f :: OutLine.openOuter (pyBasename f) ::
            (body ++ [OutLine.closeOuter]))
    else if renderer.type = "singleSymbol" then
      match process_singleSymbol root with
      | Except.error e => Except.error e
      | Except.ok body =>
        Except.ok (OutLine.header f :: OutLine.openOuter (pyBasename f) ::
          (body ++ [OutLine.closeOuter]))
    else
      Except.ok [OutLine.header f, OutLine.openOuter (pyBasename f),
        OutLine.unknownType, OutLine.closeOuter]

/-- The category selector values of an output line list, in emission
order: one entry per opened selector block. -/
def blockValues (ls : List OutLine) : List String :=
  ls.filterMap (fun l =>
    match l with
    | OutLine.openBlock _ v => some v
    | _ => none)

/-- The declaration values emitted for one declaration key, in emission
order. -/
def declsFor (key : String) (ls : List OutLine) : List DeclValue :=
  ls.filterMap (fun l =>
    match l with
    | OutLine.decl k v => if k = key then some v else none
    | _ => none)

/-! ## Concrete documents used as test inputs -/

/-- A fill layer carrying both mandatory color properties. -/
def fillLayer : LayerNode :=
  ⟨[⟨"color", "31,120,180,255"⟩, ⟨"color_border", "0,0,0,255"⟩]⟩

/-- A fill symbol named 0. -/
def fillSymA : SymbolNode := ⟨"0", "fill", [fillLayer]⟩

/-- A fill symbol named 1. -/
def fillSymB : SymbolNode := ⟨"1", "fill", [fillLayer]⟩

/-- A categorized renderer whose single category references name 0 while
two symbols carry that name. -/
def c1cexRenderer : RendererNode :=
  ⟨"categorizedSymbol", some "CLASS", [⟨"0", "water"⟩],
   [fillSymA, ⟨"0", "fill", [fillLayer]⟩]⟩

/-- The output the translator produces for c1cexRenderer. -/
def c1cexOut : List OutLine :=
  [OutLine.openBlock "CLASS" "water",
   OutLine.decl "polygon-fill" (DeclValue.str "rgba(31,120,180,255)"),
   OutLine.decl "line-color" (DeclValue.str "rgba(0,0,0,255)"),
   OutLine.closeBlock,
   OutLine.openBlock "CLASS" "water",
   OutLine.decl "polygon-fill" (DeclValue.str "rgba(31,120,180,255)"),
   OutLine.decl "line-color" (DeclValue.str "rgba(0,0,0,255)"),
   OutLine.closeBlock]

/-- A categorized renderer with two categories, each matching exactly
one symbol. -/
def c1wRenderer : RendererNode :=
  ⟨"categorizedSymbol", some "CLASS", [⟨"0", "water"⟩, ⟨"1", "land"⟩],
   [fillSymA, fillSymB]⟩

/-- The output the translator produces for c1wRenderer. -/
def c1wOut : List OutLine :=
  [OutLine.openBlock "CLASS" "water",
   OutLine.decl "polygon-fill" (DeclValue.str "rgba(31,120,180,255)"),
   OutLine.decl "line-color" (DeclValue.str "rgba(0,0,0,255)"),
   OutLine.closeBlock,
   OutLine.openBlock "CLASS" "land",
   OutLine.decl "polygon-fill" (DeclValue.str "rgba(31,120,180,255)"),
   OutLine.decl "line-color" (DeclValue.str "rgba(0,0,0,255)"),
   OutLine.closeBlock]

/-- A categorized renderer whose single category references a symbol
name that no symbol carries. -/
def c2cexRenderer : RendererNode :=
  ⟨"categorizedSymbol", some "CLASS", [⟨"9", "ghost"⟩], [fillSymA]⟩

/-- A categorized renderer with two categories and no matching symbol
for either. -/
def c2wRenderer : RendererNode :=
  ⟨"categorizedSymbol", some "T", [⟨"a", "u"⟩, ⟨"b", "w"⟩],
   [⟨"c", "fill", [fillLayer]⟩]⟩

/-- A fill symbol whose layer lacks the mandatory color property. -/
def c3cexSym : SymbolNode := ⟨"0", "fill", [⟨[⟨"color_border", "0,0,0,255"⟩]⟩]⟩

/-- A marker symbol whose layer lacks the mandatory size property. -/
def c3wSym : SymbolNode := ⟨"m", "marker", [⟨[⟨"color", "1,1,1,255"⟩]⟩]⟩

/-- A line symbol whose layer has no penstyle property. -/
def c4cexSym : SymbolNode := ⟨"0", "line", [⟨[⟨"color", "255,0,0,255"⟩]⟩]⟩

/-- A line symbol with an empty layer. -/
def c4wSym : SymbolNode := ⟨"w", "line", [⟨[]⟩]⟩

/-- A line layer whose penstyle is dash. -/
def c5wLayer : LayerNode := ⟨[⟨"color", "0,0,255,255"⟩, ⟨"penstyle", "dash"⟩]⟩

/-- A line symbol over c5wLayer. -/
def c5wSym : SymbolNode := ⟨"w", "line", [c5wLayer]⟩

/-- A marker layer whose size is the numeral 3. -/
def c6wLayer : LayerNode :=
  ⟨[⟨"color", "255,0,0,255"⟩, ⟨"color_border", "0,0,0,255"⟩, ⟨"size", "3"⟩]⟩

/-- A marker symbol over c6wLayer. -/
def c6wSym : SymbolNode := ⟨"w", "marker", [c6wLayer]⟩

/-- A document whose renderer type is the unrecognized heatmap. -/
def c7wDoc : StyleDocument := ⟨[⟨"heatmap", none, [], []⟩]⟩

/-- A layer with two records sharing the key color. -/
def c8wLayer : LayerNode := ⟨[⟨"color", "first"⟩, ⟨"color", "second"⟩]⟩

/-- A fill symbol whose width-border property is present but empty. -/
def c9wSym : SymbolNode := ⟨"w", "fill", [⟨[⟨"width-border", ""⟩]⟩]⟩

/-- A symbol of an unhandled kind. -/
def c10wSym : SymbolNode := ⟨"w", "text", [⟨[⟨"color", "1"⟩]⟩]⟩

/-! ## Helper lemmas about the output shape -/

theorem blockValues_append (a b : List OutLine) :
    blockValues (a ++ b) = blockValues a ++ blockValues b := by
  simp [blockValues]

theorem declsFor_append (key : String) (a b : List OutLine) :
    declsFor key (a ++ b) = declsFor key a ++ declsFor key b := by
  simp [declsFor]

theorem blockValues_optionalDecl (key : String) (w : Option String) :
    blockValues (optionalDecl key w) = [] := by
  cases w with
  | none => rfl
  | some s =>
    rcases eq_or_ne s "" with h | h
    · simp [optionalDecl, blockValues, h]
    · simp [optionalDecl, blockValues, h]

theorem blockValues_dashDecl (p : String) : blockValues (dashDecl p) = [] := by
  unfold dashDecl
  split
  · rfl
  · rfl

theorem blockValues_fillLines (ty : String) (layer : LayerNode) :
    blockValues (fillLines ty layer) = [] := by
  unfold fillLines
  split
  · rw [show OutLine.decl "polygon-fill" (DeclValue.str (get_prop_color layer "color")) ::
        OutLine.decl "line-color" (DeclValue.str (get_prop_color layer "color_border")) ::
        optionalDecl "line-width" (get_prop layer "width-border") =
        [OutLine.decl "polygon-fill" (DeclValue.str (get_prop_color layer "color")),
         OutLine.decl "line-color" (DeclValue.str (get_prop_color layer "color_border"))] ++
        optionalDecl "line-width" (get_prop layer "width-border") from rfl]
    rw [blockValues_append, blockValues_optionalDecl]
    rfl
  · rfl

theorem blockValues_lineLines (ty : String) (layer : LayerNode) :
    blockValues (lineLines ty layer) = [] := by
  unfold lineLines
  split
  · rw [show OutLine.decl "line-color" (DeclValue.str (get_prop_color layer "color")) ::
        (optionalDecl "line-width" (get_prop layer "width") ++
         dashDecl (get_prop_penstyle layer "penstyle")) =
        [OutLine.decl "line-color" (DeclValue.str (get_prop_color layer "color"))] ++
        (optionalDecl "line-width" (get_prop layer "width") ++
         dashDecl (get_prop_penstyle layer "penstyle")) from rfl]
    rw [blockValues_append, blockValues_append, blockValues_optionalDecl, blockValues_dashDecl]
    rfl
  · rfl

theorem blockValues_markerLines (layer : LayerNode) (q : ℚ) :
    blockValues (markerLines layer q) = [] := rfl

theorem blockValues_process_symbol (s : SymbolNode) (ls : List OutLine)
    (h : process_symbol s = Except.ok ls) : blockValues ls = [] := by
  obtain ⟨name, ty, layers⟩ := s
  cases layers with
  | nil => exact absurd h (by simp [process_symbol])
  | cons layer rest =>
    simp only [process_symbol] at h
    split at h
    · split at h
      · exact absurd h (by simp)
      · injection h with h
        subst h
        rw [blockValues_append, blockValues_append, blockValues_fillLines,
          blockValues_lineLines, blockValues_markerLines]
        rfl
    · injection h with h
      subst h
      rw [blockValues_append, blockValues_fillLines, blockValues_lineLines]
      rfl

theorem blockValues_processOneCategory (attr value : String)
    (syms : List SymbolNode) (ls : List OutLine)
    (h : processOneCategory attr value syms = Except.ok ls) :
    blockValues ls = syms.map (fun _ => value) := by
  induction syms generalizing ls with
  | nil =>
    simp only [processOneCategory] at h
    injection h with h
    subst h
    rfl
  | cons s rest ih =>
    simp only [processOneCategory] at h
    cases hps : process_symbol s with
    | error e => rw [hps] at h; exact absurd h (by simp)
    | ok body =>
      rw [hps] at h
      cases hpr : processOneCategory attr value rest with
      | error e => rw [hpr] at h; exact absurd h (by simp)
      | ok tail =>
        rw [hpr] at h
        injection h with h
        subst h
        rw [show OutLine.openBlock attr value :: (body ++ OutLine.closeBlock :: tail) =
            [OutLine.openBlock attr value] ++ (body ++ ([OutLine.closeBlock] ++ tail)) from rfl]
        rw [blockValues_append, blockValues_append, blockValues_append,
          blockValues_process_symbol s body hps, ih tail hpr]
        rfl

theorem blockValues_processCategories (symbols : List SymbolNode) (attr : String)
    (cats : List CategoryEntry) (ls : List OutLine)
    (h : processCategories symbols attr cats = Except.ok ls) :
    blockValues ls =
      (cats.map (fun c =>
        (symbols.filter (fun s => s.name = c.symbol)).map (fun _ => c.value))).flatten := by
  induction cats generalizing ls with
  | nil =>
    simp only [processCategories] at h
    injection h with h
    subst h
    rfl
  | cons c rest ih =>
    simp only [processCategories] at h
    cases hpc : processOneCategory attr c.value (symbols.filter (fun s => s.name = c.symbol)) with
    | error e => rw [hpc] at h; exact absurd h (by simp)
    | ok blocks =>
      rw [hpc] at h
      cases hpr : processCategories symbols attr rest with
      | error e => rw [hpr] at h; exact absurd h (by simp)
      | ok tail =>
        rw [hpr] at h
        injection h with h
        subst h
        rw [blockValues_append, blockValues_processOneCategory _ _ _ _ hpc, ih tail hpr]
        rfl

theorem processCategories_unmatched (symbols : List SymbolNode) (attr : String)
    (cats : List CategoryEntry)
    (h : ∀ c ∈ cats, symbols.filter (fun s => s.name = c.symbol) = []) :
    processCategories symbols attr cats = Except.ok [] := by
  induction cats with
  | nil => rfl
  | cons c rest ih =>
    simp only [processCategories]
    rw [h c (by simp)]
    rw [ih (fun d hd => h d (by simp [hd]))]
    rfl

/-! ## Per-kind equations for process_symbol -/

theorem process_symbol_fill (s : SymbolNode) (layer : LayerNode) (rest : List LayerNode)
    (hl : s.layers = layer :: rest) (ht : s.type = "fill") :
    process_symbol s = Except.ok (fillLines "fill" layer) := by
  obtain ⟨name, ty, layers⟩ := s
  simp only at hl ht
  subst hl
  subst ht
  simp only [process_symbol]
  rw [if_neg (by decide)]
  rw [show lineLines "fill" layer = [] from if_neg (by decide)]
  rw [List.append_nil]

theorem process_symbol_line (s : SymbolNode) (layer : LayerNode) (rest : List LayerNode)
    (hl : s.layers = layer :: rest) (ht : s.type = "line") :
    process_symbol s = Except.ok (lineLines "line" layer) := by
  obtain ⟨name, ty, layers⟩ := s
  simp only at hl ht
  subst hl
  subst ht
  simp only [process_symbol]
  rw [if_neg (by decide)]
  rw [show fillLines "line" layer = [] from if_neg (by decide)]
  rw [List.nil_append]

theorem process_symbol_other (s : SymbolNode) (layer : LayerNode) (rest : List LayerNode)
    (hl : s.layers = layer :: rest)
    (h1 : s.type ≠ "fill") (h2 : s.type ≠ "line") (h3 : s.type ≠ "marker") :
    process_symbol s = Except.ok [] := by
  obtain ⟨name, ty, layers⟩ := s
  simp only at hl h1 h2 h3
  subst hl
  simp only [process_symbol]
  rw [if_neg h3]
  rw [show fillLines ty layer = [] from if_neg h1]
  rw [show lineLines ty layer = [] from if_neg h2]
  rfl

theorem process_symbol_marker_ok (s : SymbolNode) (layer : LayerNode) (rest : List LayerNode)
    (hl : s.layers = layer :: rest) (ht : s.type = "marker")
    (q : ℚ) (hq : pyFloatOfOpt (get_prop layer "size") = Except.ok q) :
    process_symbol s = Except.ok (markerLines layer q) := by
  obtain ⟨name, ty, layers⟩ := s
  simp only at hl ht
  subst hl
  subst ht
  simp only [process_symbol]
  rw [if_pos trivial, hq]
  rw [show fillLines "marker" layer = [] from if_neg (by decide)]
  rw [show lineLines "marker" layer = [] from if_neg (by decide)]
  rfl

theorem process_symbol_marker_err (s : SymbolNode) (layer : LayerNode) (rest : List LayerNode)
    (hl : s.layers = layer :: rest) (ht : s.type = "marker")
    (e : PyError) (hq : pyFloatOfOpt (get_prop layer "size") = Except.error e) :
    process_symbol s = Except.error e := by
  obtain ⟨name, ty, layers⟩ := s
  simp only at hl ht
  subst hl
  subst ht
  simp only [process_symbol]
  rw [if_pos trivial, hq]

/-! ## declsFor on the emitted pieces -/

theorem declsFor_optionalDecl_ne (key k2 : String) (w : Option String) (h : k2 ≠ key) :
    declsFor key (optionalDecl k2 w) = [] := by
  cases w with
  | none => rfl
  | some s =>
    rcases eq_or_ne s "" with hs | hs
    · simp [optionalDecl, declsFor, hs]
    · simp [optionalDecl, declsFor, hs, h]

theorem declsFor_dashDecl (p : String) :
    declsFor "line-dasharray" (dashDecl p) =
      if p ≠ "" ∧ p ≠ "none" then [DeclValue.str p] else [] := by
  unfold dashDecl
  split
  · simp [declsFor]
  · rfl

/-! ## Lookup lemmas for find_layer_prop -/

theorem find_layer_prop_none_iff (layer : LayerNode) (key : String) :
    find_layer_prop layer key = none ↔ ∀ r ∈ layer.props, r.k ≠ key := by
  cases hf : layer.props.filter (fun p => p.k = key) with
  | nil =>
    simp only [find_layer_prop, hf]
    constructor
    · intro _ r hr hk
      have hm : r ∈ layer.props.filter (fun p => p.k = key) :=
        List.mem_filter.mpr ⟨hr, by simp [hk]⟩
      rw [hf] at hm
      exact absurd hm (by simp)
    · intro _
      trivial
  | cons r rs =>
    simp only [find_layer_prop, hf]
    constructor
    · intro h
      exact absurd h (by simp)
    · intro h
      have hm : r ∈ layer.props.filter (fun p => p.k = key) := by rw [hf]; simp
      have hp := List.mem_filter.mp hm
      exact absurd (by simpa using hp.2) (h r hp.1)

theorem find_layer_prop_first (props : List PropertyRecord) (key : String) (i : Nat)
    (hi : i < props.length)
    (hk : (props.get ⟨i, hi⟩).k = key)
    (hb : ∀ r ∈ props.take i, r.k ≠ key) :
    find_layer_prop ⟨props⟩ key = some (props.get ⟨i, hi⟩).v := by
  induction props generalizing i with
  | nil => exact absurd hi (by simp)
  | cons a props ih =>
    cases i with
    | zero =>
      simp only [find_layer_prop, List.filter_cons]
      rw [if_pos (by simpa using hk)]
      rfl
    | succ j =>
      have ha : a.k ≠ key := hb a (by simp)
      have hj : j < props.length := by simpa using hi
      have hk2 : (props.get ⟨j, hj⟩).k = key := hk
      have hb2 : ∀ r ∈ props.take j, r.k ≠ key := by
        intro r hr
        exact hb r (by simp [List.mem_cons_of_mem, hr])
      have hr := ih j hj hk2 hb2
      simp only [find_layer_prop, List.filter_cons]
      rw [if_neg (by simpa using ha)]
      exact hr

theorem declsFor_lineLines (layer : LayerNode) :
    declsFor "line-dasharray" (lineLines "line" layer) =
      declsFor "line-dasharray" (dashDecl (get_prop_penstyle layer "penstyle")) := by
  unfold lineLines
  rw [if_pos rfl]
  rw [show OutLine.decl "line-color" (DeclValue.str (get_prop_color layer "color")) ::
      (optionalDecl "line-width" (get_prop layer "width") ++
       dashDecl (get_prop_penstyle layer "penstyle")) =
      [OutLine.decl "line-color" (DeclValue.str (get_prop_color layer "color"))] ++
      (optionalDecl "line-width" (get_prop layer "width") ++
       dashDecl (get_prop_penstyle layer "penstyle")) from rfl]
  rw [declsFor_append, declsFor_append,
    declsFor_optionalDecl_ne "line-dasharray" "line-width" _ (by decide)]
  rw [show declsFor "line-dasharray"
      [OutLine.decl "line-color" (DeclValue.str (get_prop_color layer "color"))] = []
      from rfl]
  rfl

theorem declsFor_fillLines_width (layer : LayerNode) :
    declsFor "line-width" (fillLines "fill" layer) =
      declsFor "line-width" (optionalDecl "line-width" (get_prop layer "width-border")) := by
  unfold fillLines
  rw [if_pos rfl]
  rw [show OutLine.decl "polygon-fill" (DeclValue.str (get_prop_color layer "color")) ::
      OutLine.decl "line-color" (DeclValue.str (get_prop_color layer "color_border")) ::
      optionalDecl "line-width" (get_prop layer "width-border") =
      [OutLine.decl "polygon-fill" (DeclValue.str (get_prop_color layer "color")),
       OutLine.decl "line-color" (DeclValue.str (get_prop_color layer "color_border"))] ++
      optionalDecl "line-width" (get_prop layer "width-border") from rfl]
  rw [declsFor_append]
  rw [show declsFor "line-width"
      [OutLine.decl "polygon-fill" (DeclValue.str (get_prop_color layer "color")),
       OutLine.decl "line-color" (DeclValue.str (get_prop_color layer "color_border"))] = []
      from rfl]
  rfl

theorem declsFor_lineLines_width (layer : LayerNode) :
    declsFor "line-width" (lineLines "line" layer) =
      declsFor "line-width" (optionalDecl "line-width" (get_prop layer "width")) ++
      declsFor "line-width" (dashDecl (get_prop_penstyle layer "penstyle")) := by
  unfold lineLines
  rw [if_pos rfl]
  rw [show OutLine.decl "line-color" (DeclValue.str (get_prop_color layer "color")) ::
      (optionalDecl "line-width" (get_prop layer "width") ++
       dashDecl (get_prop_penstyle layer "penstyle")) =
      [OutLine.decl "line-color" (DeclValue.str (get_prop_color layer "color"))] ++
      (optionalDecl "line-width" (get_prop layer "width") ++
       dashDecl (get_prop_penstyle layer "penstyle")) from rfl]
  rw [declsFor_append, declsFor_append]
  rw [show declsFor "line-width"
      [OutLine.decl "line-color" (DeclValue.str (get_prop_color layer "color"))] = []
      from rfl]
  rfl

theorem declsFor_markerLines_width (layer : LayerNode) (q : ℚ) :
    declsFor "marker-width" (markerLines layer q) = [DeclValue.num (q * 5)] := rfl

theorem declsFor_dashDecl_width (p : String) :
    declsFor "line-width" (dashDecl p) = [] := by
  unfold dashDecl
  split
  · rfl
  · rfl

/-! ## Claim theorems -/

/-- Generic list fact: a flatMap whose pieces are all singletons is the
plain map. -/
theorem flatten_map_singleton {α β γ : Type} (f : α → List β) (g : α → γ)
    (cats : List α) (hu : ∀ c ∈ cats, (f c).length = 1) :
    ((cats.map (fun c => (f c).map (fun _ => g c))).flatten) = cats.map g := by
  induction cats with
  | nil => rfl
  | cons c rest ih =>
    have h1 := hu c (by simp)
    obtain ⟨x, hx⟩ : ∃ x, f c = [x] := by
      rcases hf : f c with _ | ⟨x, xs⟩
      · rw [hf] at h1; simp at h1
      · rw [hf] at h1
        have h2 : xs = [] := by
          simpa using h1
        exact ⟨x, by rw [h2]⟩
    simp only [List.map_cons, List.flatten_cons, hx, List.map_singleton]
    rw [ih (fun d hd => hu d (by simp [hd]))]
    rfl

/-- C1: In the code, a category yields one selector block per symbol the
name query matches, so the claimed one-block-per-entry shape holds
exactly when the symbol_name of every entry matches exactly one symbol; then
the block count equals the entry count and the block order (witnessed by
the emitted category values) equals document order. -/
theorem spec_c1 (r : RendererNode) (attr : String) (ls : List OutLine)
    (h : process_categorizedSymbol r attr = Except.ok ls)
    (hu : ∀ c ∈ r.categories,
      (r.symbols.filter (fun s => s.name = c.symbol)).length = 1) :
    blockValues ls = r.categories.map (fun c => c.value) := by
  have hb := blockValues_processCategories r.symbols attr r.categories ls h
  rw [hb]
  exact flatten_map_singleton _ _ _ hu

/-- C2 (amended): the categorized strategy never fails on an unmatched
category: when no category of the renderer matches any symbol the
translation returns successfully with no output at all, and in general
each category contributes one block per matching symbol — all matches,
not just the first. -/
theorem spec_c2 (r : RendererNode) (attr : String) :
    ((∀ c ∈ r.categories, r.symbols.filter (fun s => s.name = c.symbol) = []) →
      process_categorizedSymbol r attr = Except.ok []) ∧
    (∀ ls, process_categorizedSymbol r attr = Except.ok ls →
      blockValues ls =
        (r.categories.map (fun c =>
          (r.symbols.filter (fun s => s.name = c.symbol)).map
            (fun _ => c.value))).flatten) := by
  constructor
  · intro h
    exact processCategories_unmatched r.symbols attr r.categories h
  · intro ls h
    exact blockValues_processCategories r.symbols attr r.categories ls h

/-- C3 (amended): an absent mandatory color key does not raise any
error — the declaration is emitted with the literal value rgba(None) —
for fill as well as line symbols; only an absent size on a marker symbol
makes the symbol fail, and the failure is the float conversion error on
None, not a MissingPropertyError. -/
theorem spec_c3 (s : SymbolNode) (layer : LayerNode) (rest : List LayerNode)
    (hl : s.layers = layer :: rest) :
    (s.type = "fill" → find_layer_prop layer "color" = none →
      ∃ ls, process_symbol s = Except.ok ls ∧
        OutLine.decl "polygon-fill" (DeclValue.str "rgba(None)") ∈ ls) ∧
    (s.type = "line" → find_layer_prop layer "color" = none →
      ∃ ls, process_symbol s = Except.ok ls ∧
        OutLine.decl "line-color" (DeclValue.str "rgba(None)") ∈ ls) ∧
    (s.type = "marker" → find_layer_prop layer "size" = none →
      process_symbol s = Except.error (PyError.floatConvError none)) := by
  refine ⟨?_, ?_, ?_⟩
  · intro ht hc
    refine ⟨fillLines "fill" layer, process_symbol_fill s layer rest hl ht, ?_⟩
    have hcol : get_prop_color layer "color" = "rgba(None)" := by
      unfold get_prop_color
      rw [hc]
      rfl
    unfold fillLines
    rw [if_pos rfl, hcol]
    exact List.mem_cons_self _ _
  · intro ht hc
    refine ⟨lineLines "line" layer, process_symbol_line s layer rest hl ht, ?_⟩
    have hcol : get_prop_color layer "color" = "rgba(None)" := by
      unfold get_prop_color
      rw [hc]
      rfl
    unfold lineLines
    rw [if_pos rfl, hcol]
    exact List.mem_cons_self _ _
  · intro ht hc
    refine process_symbol_marker_err s layer rest hl ht _ ?_
    unfold pyFloatOfOpt get_prop
    rw [hc]

/-- C4 (amended): a line symbol whose layer has no penstyle record does
emit a line-dasharray declaration: the absent lookup maps to the XXX
sentinel, which passes the truthiness-and-not-none guard, so the line
emitted is line-dasharray: XXX. -/
theorem spec_c4 (s : SymbolNode) (layer : LayerNode) (rest : List LayerNode)
    (hl : s.layers = layer :: rest) (ht : s.type = "line")
    (hp : find_layer_prop layer "penstyle" = none) :
    ∃ ls, process_symbol s = Except.ok ls ∧
      declsFor "line-dasharray" ls = [DeclValue.str "XXX"] := by
  refine ⟨lineLines "line" layer, process_symbol_line s layer rest hl ht, ?_⟩
  have hps : get_prop_penstyle layer "penstyle" = "XXX" := by
    unfold get_prop_penstyle
    rw [hp]
    rfl
  rw [declsFor_lineLines, hps]
  rfl

/-- C5: the penstyle translation on line symbols — solid suppresses the
line-dasharray declaration entirely, dash emits exactly 5, 2, dot emits
exactly 1, 1, and every other present value emits the XXX sentinel. -/
theorem spec_c5 (s : SymbolNode) (layer : LayerNode) (rest : List LayerNode)
    (hl : s.layers = layer :: rest) (ht : s.type = "line") :
    (find_layer_prop layer "penstyle" = some "solid" →
      ∃ ls, process_symbol s = Except.ok ls ∧ declsFor "line-dasharray" ls = []) ∧
    (find_layer_prop layer "penstyle" = some "dash" →
      ∃ ls, process_symbol s = Except.ok ls ∧
        declsFor "line-dasharray" ls = [DeclValue.str "5, 2"]) ∧
    (find_layer_prop layer "penstyle" = some "dot" →
      ∃ ls, process_symbol s = Except.ok ls ∧
        declsFor "line-dasharray" ls = [DeclValue.str "1, 1"]) ∧
    (∀ v, find_layer_prop layer "penstyle" = some v →
      v ≠ "solid" → v ≠ "dash" → v ≠ "dot" →
      ∃ ls, process_symbol s = Except.ok ls ∧
        declsFor "line-dasharray" ls = [DeclValue.str "XXX"]) := by
  refine ⟨?_, ?_, ?_, ?_⟩
  · intro hp
    refine ⟨lineLines "line" layer, process_symbol_line s layer rest hl ht, ?_⟩
    have hps : get_prop_penstyle layer "penstyle" = "none" := by
      unfold get_prop_penstyle
      rw [hp]
      rfl
    rw [declsFor_lineLines, hps]
    rfl
  · intro hp
    refine ⟨lineLines "line" layer, process_symbol_line s layer rest hl ht, ?_⟩
    have hps : get_prop_penstyle layer "penstyle" = "5, 2" := by
      unfold get_prop_penstyle
      rw [hp]
      rfl
    rw [declsFor_lineLines, hps]
    rfl
  · intro hp
    refine ⟨lineLines "line" layer, process_symbol_line s layer rest hl ht, ?_⟩
    have hps : get_prop_penstyle layer "penstyle" = "1, 1" := by
      unfold get_prop_penstyle
      rw [hp]
      rfl
    rw [declsFor_lineLines, hps]
    rfl
  · intro v hp h1 h2 h3
    refine ⟨lineLines "line" layer, process_symbol_line s layer rest hl ht, ?_⟩
    have hps : get_prop_penstyle layer "penstyle" = "XXX" := by
      unfold get_prop_penstyle
      rw [hp]
      rw [if_neg (by simpa using h1), if_neg (by simpa using h2), if_neg (by simpa using h3)]
    rw [declsFor_lineLines, hps]
    rfl

/-- C6: for marker symbols a size that parses as the number q yields a
marker-width declaration whose value is exactly q times 5 (numbers are
modelled as exact rationals), while an absent or non-numeric size makes
translation of the symbol fail with the float conversion error. -/
theorem spec_c6 (s : SymbolNode) (layer : LayerNode) (rest : List LayerNode)
    (hl : s.layers = layer :: rest) (ht : s.type = "marker") :
    (∀ raw q, find_layer_prop layer "size" = some raw → pyFloat raw = some q →
      ∃ ls, process_symbol s = Except.ok ls ∧
        declsFor "marker-width" ls = [DeclValue.num (q * 5)]) ∧
    (find_layer_prop layer "size" = none →
      process_symbol s = Except.error (PyError.floatConvError none)) ∧
    (∀ raw, find_layer_prop layer "size" = some raw → pyFloat raw = none →
      process_symbol s = Except.error (PyError.floatConvError (some raw))) := by
  refine ⟨?_, ?_, ?_⟩
  · intro raw q hraw hq
    have hok : pyFloatOfOpt (get_prop layer "size") = Except.ok q := by
      unfold get_prop
      rw [hraw]
      simp only [pyFloatOfOpt]
      rw [hq]
    refine ⟨markerLines layer q,
      process_symbol_marker_ok s layer rest hl ht q hok, ?_⟩
    exact declsFor_markerLines_width layer q
  · intro hp
    refine process_symbol_marker_err s layer rest hl ht _ ?_
    unfold get_prop
    rw [hp]
    rfl
  · intro raw hraw hq
    refine process_symbol_marker_err s layer rest hl ht _ ?_
    unfold get_prop
    rw [hraw]
    simp only [pyFloatOfOpt]
    rw [hq]

/-- C7: a document whose first renderer has an unrecognized type
translates successfully to exactly the outer selector block wrapping the
unknown-type diagnostic — no selector blocks, no declarations, and no
error. -/
theorem spec_c7 (f : String) (root : StyleDocument) (r : RendererNode)
    (rest : List RendererNode) (hr : root.renderers = r :: rest)
    (h1 : r.type ≠ "categorizedSymbol") (h2 : r.type ≠ "singleSymbol") :
    process_file f root =
      Except.ok [OutLine.header f, OutLine.openOuter (pyBasename f),
        OutLine.unknownType, OutLine.closeOuter] := by
  obtain ⟨renderers⟩ := root
  simp only at hr
  subst hr
  simp only [process_file]
  rw [if_neg h1, if_neg h2]

/-- C8: property resolution returns the value of the first record in
document order whose key equals the lookup key exactly, and returns the
absent result (no error) precisely when no record matches. -/
theorem spec_c8 (layer : LayerNode) (key : String) :
    (find_layer_prop layer key = none ↔ ∀ r ∈ layer.props, r.k ≠ key) ∧
    (∀ i (hi : i < layer.props.length),
      (layer.props.get ⟨i, hi⟩).k = key →
      (∀ r ∈ layer.props.take i, r.k ≠ key) →
      find_layer_prop layer key = some (layer.props.get ⟨i, hi⟩).v) := by
  constructor
  · exact find_layer_prop_none_iff layer key
  · intro i hi hk hb
    obtain ⟨props⟩ := layer
    exact find_layer_prop_first props key i hi hk hb

/-- C9: a present-but-empty optional width value is falsy in Python, so
a fill symbol with width-border equal to the empty string emits no
line-width declaration, and neither does a line symbol with width equal
to the empty string. -/
theorem spec_c9 (s : SymbolNode) (layer : LayerNode) (rest : List LayerNode)
    (hl : s.layers = layer :: rest) :
    (s.type = "fill" → find_layer_prop layer "width-border" = some "" →
      ∃ ls, process_symbol s = Except.ok ls ∧ declsFor "line-width" ls = []) ∧
    (s.type = "line" → find_layer_prop layer "width" = some "" →
      ∃ ls, process_symbol s = Except.ok ls ∧ declsFor "line-width" ls = []) := by
  constructor
  · intro ht hw
    refine ⟨fillLines "fill" layer, process_symbol_fill s layer rest hl ht, ?_⟩
    rw [declsFor_fillLines_width]
    have hop : get_prop layer "width-border" = some "" := hw
    rw [hop]
    rfl
  · intro ht hw
    refine ⟨lineLines "line" layer, process_symbol_line s layer rest hl ht, ?_⟩
    rw [declsFor_lineLines_width]
    have hop : get_prop layer "width" = some "" := hw
    rw [hop, declsFor_dashDecl_width]
    rfl

/-- C10: a symbol whose type is none of fill, line and marker falls
through all three branches of process_symbol, emitting no declaration
and raising no error. -/
theorem spec_c10 (s : SymbolNode) (layer : LayerNode) (rest : List LayerNode)
    (hl : s.layers = layer :: rest)
    (h1 : s.type ≠ "fill") (h2 : s.type ≠ "line") (h3 : s.type ≠ "marker") :
    process_symbol s = Except.ok [] :=
  process_symbol_other s layer rest hl h1 h2 h3

/-! ## Counterexamples -/

/-- C1 counterexample: a categorized document with one category whose
symbol name is carried by two symbols yields two selector blocks for
that single CategoryEntry, refuting exactly-one-block-per-entry. -/
theorem spec_c1_cex :
    process_categorizedSymbol c1cexRenderer "CLASS" = Except.ok c1cexOut ∧
    (blockValues c1cexOut).length = 2 ∧ c1cexRenderer.categories.length = 1 :=
  ⟨rfl, rfl, rfl⟩

/-- C2 counterexample: a categorized document whose single category
references a symbol name with no matching symbol translates successfully
to empty output — no SymbolNotFoundError, no failure of any kind. -/
theorem spec_c2_cex :
    process_categorizedSymbol c2cexRenderer "CLASS" = Except.ok [] := rfl

/-- C3 counterexample: a fill symbol whose layer lacks the mandatory
color key is emitted successfully — no MissingPropertyError — with the
literal declaration value rgba(None). -/
theorem spec_c3_cex :
    process_symbol c3cexSym =
      Except.ok [OutLine.decl "polygon-fill" (DeclValue.str "rgba(None)"),
        OutLine.decl "line-color" (DeclValue.str "rgba(0,0,0,255)")] := rfl

/-- C4 counterexample: a line symbol whose layer has no penstyle record
emits a line-dasharray declaration (with the sentinel value XXX),
refuting the claim that the declaration is omitted. -/
theorem spec_c4_cex :
    process_symbol c4cexSym =
      Except.ok [OutLine.decl "line-color" (DeclValue.str "rgba(255,0,0,255)"),
        OutLine.decl "line-dasharray" (DeclValue.str "XXX")] := rfl

/-! ## Witnesses -/

/-- C1 witness: with two categories each matching exactly one symbol,
the emitted blocks are one per category, in document order. -/
theorem spec_c1_witness :
    process_categorizedSymbol c1wRenderer "CLASS" = Except.ok c1wOut ∧
    blockValues c1wOut = ["water", "land"] :=
  ⟨rfl, spec_c1 c1wRenderer "CLASS" c1wOut rfl (by decide)⟩

/-- C2 witness: a renderer whose two categories match no symbol
translates to ok with no output. -/
theorem spec_c2_witness :
    process_categorizedSymbol c2wRenderer "T" = Except.ok [] :=
  (spec_c2 c2wRenderer "T").1 (by decide)

/-- C3 witness: a marker symbol with no size property fails with the
float conversion error on None. -/
theorem spec_c3_witness :
    process_symbol c3wSym = Except.error (PyError.floatConvError none) :=
  (spec_c3 c3wSym ⟨[⟨"color", "1,1,1,255"⟩]⟩ [] rfl).2.2 rfl rfl

/-- C4 witness: a line symbol over an empty layer emits
line-dasharray: XXX. -/
theorem spec_c4_witness :
    ∃ ls, process_symbol c4wSym = Except.ok ls ∧
      declsFor "line-dasharray" ls = [DeclValue.str "XXX"] :=
  spec_c4 c4wSym ⟨[]⟩ [] rfl rfl rfl

/-- C5 witness: a line symbol whose penstyle is dash emits
line-dasharray with value exactly 5, 2. -/
theorem spec_c5_witness :
    ∃ ls, process_symbol c5wSym = Except.ok ls ∧
      declsFor "line-dasharray" ls = [DeclValue.str "5, 2"] :=
  (spec_c5 c5wSym c5wLayer [] rfl rfl).2.1 rfl

/-- C6 witness: a marker symbol with size 3 emits marker-width with
value 3 times 5. -/
theorem spec_c6_witness :
    ∃ ls, process_symbol c6wSym = Except.ok ls ∧
      declsFor "marker-width" ls = [DeclValue.num ((3 : ℚ) * 5)] :=
  (spec_c6 c6wSym c6wLayer [] rfl rfl).1 "3" 3 rfl rfl

/-- C7 witness: a heatmap-typed renderer degrades to the empty outer
block plus the diagnostic line. -/
theorem spec_c7_witness :
    process_file "12345678doc.qml" c7wDoc =
      Except.ok [OutLine.header "12345678doc.qml", OutLine.openOuter "doc",
        OutLine.unknownType, OutLine.closeOuter] :=
  spec_c7 "12345678doc.qml" c7wDoc ⟨"heatmap", none, [], []⟩ [] rfl
    (by decide) (by decide)

/-- C8 witness: with two records sharing the key color, lookup returns
the first value. -/
theorem spec_c8_witness :
    find_layer_prop c8wLayer "color" = some "first" :=
  (spec_c8 c8wLayer "color").2 0 (by decide) rfl (by simp [c8wLayer])

/-- C9 witness: a fill symbol whose width-border is the empty string
emits no line-width declaration. -/
theorem spec_c9_witness :
    ∃ ls, process_symbol c9wSym = Except.ok ls ∧
      declsFor "line-width" ls = [] :=
  (spec_c9 c9wSym ⟨[⟨"width-border", ""⟩]⟩ [] rfl).1 rfl rfl

/-- C10 witness: a text-typed symbol is processed to no output and no
error. -/
theorem spec_c10_witness : process_symbol c10wSym = Except.ok [] :=
  spec_c10 c10wSym ⟨[⟨"color", "1"⟩]⟩ [] rfl (by decide) (by decide) (by decide)
